import Mathlib

/-!
Shallow embedding of the auto-aiming core of the iRM_Vision_2023
repository: `Aiming/Aim.py` (class `Aim`) and
`Aiming/DistEst/pnp_solver.py` (class `pnp_estimator`).

External collaborators — OpenCV (`cv2.solvePnP`, `cv2.Rodrigues`), scipy
(`Rotation.as_euler`), the `TrajModel` module (not under the visible
sources) and the tracker — are parameters of the embedding.  Scalars are
modelled as exact rationals.
-/

set_option synthInstance.maxSize 1000

abbrev Vec3 : Type := ℚ × ℚ × ℚ

abbrev Mat3 : Type := Vec3 × Vec3 × Vec3

abbrev BBox : Type := ℚ × ℚ × ℚ × ℚ

/-- One detected light bar: its top and bottom 2D keypoints, in (possibly
fractional) pixel coordinates. -/
structure Light where
  top : ℚ × ℚ
  btm : ℚ × ℚ
deriving DecidableEq

/-- One armor detection as consumed by `Aim.preprocess` and
`pnp_estimator.estimate_position`: class label, bounding box and the two
light bars. -/
structure Armor where
  cls : ℕ
  bbox : BBox
  left_light : Light
  right_light : Light
deriving DecidableEq

/-- The fields of `stm32_state_dict` read by `Aim.preprocess`. -/
structure GimbalState where
  cur_yaw : ℚ
  cur_pitch : ℚ
deriving DecidableEq

/-- Truncation toward zero: the semantics of numpy `astype(int)` applied to
the keypoint coordinates (pnp_solver.py lines 39-42).  Since a rational is
stored as `num / den` with `den > 0`, truncated integer division of the
numerator by the denominator is exactly truncation toward zero. -/
def truncQ (q : ℚ) : ℤ := q.num.tdiv q.den

def truncPt (p : ℚ × ℚ) : ℤ × ℤ := (truncQ p.1, truncQ p.2)

/-- `obj_2d_pts` of `pnp_estimator.estimate_position` (pnp_solver.py lines
38-43): the four keypoints, each truncated to integer pixels. -/
def obj_2d_pts (armor : Armor) : List (ℤ × ℤ) :=
  [truncPt armor.left_light.top,
   truncPt armor.left_light.btm,
   truncPt armor.right_light.top,
   truncPt armor.right_light.btm]

/-- `small_armor_3d_pts` (pnp_solver.py lines 21-26), in meters. -/
def small_armor_3d_pts : List Vec3 :=
  [(-65/1000, -125/4000, 0),
   (-65/1000, 125/4000, 0),
   (65/1000, -125/4000, 0),
   (65/1000, 125/4000, 0)]

/-- External computer-vision collaborators of `pnp_estimator`, plus the
camera intrinsic matrix `K` (from `Utils.get_intrinsic_matrix`).
`solvePnP` models `cv2.solvePnP` with the IPPE flag: it returns
`some (rvec, tvec)` on success and `none` when the solver reports failure
(`retval` false); per the spec, degenerate geometry is signalled through
this failure value.  `Rodrigues` models `cv2.Rodrigues`; `eulerXYZ` models
`scipy Rotation.as_euler xyz`. -/
structure ExtModel where
  K : Mat3
  solvePnP : List Vec3 → List (ℤ × ℤ) → Mat3 → Option (Vec3 × Vec3)
  Rodrigues : Vec3 → Mat3
  eulerXYZ : Mat3 → ℚ × ℚ × ℚ

/-- `pnp_estimator.estimate_position` (pnp_solver.py lines 28-65).  The
`assert not np.isnan(armor_yaw)` on line 60 cannot fire in this exact
model (the Euler yaw extracted from a rotation matrix is a real number,
never NaN), so the embedding is total. -/
def pnp_estimator.estimate_position (M : ExtModel) (armor : Armor) :
    Option Vec3 × Option ℚ :=
  match M.solvePnP small_armor_3d_pts (obj_2d_pts armor) M.K with
  | none => (none, none)
  | some (rvec, tvec) =>
    let rot_mat := M.Rodrigues rvec
    let armor_yaw := (M.eulerXYZ rot_mat).2.2
    let armor_xyz : Vec3 := (tvec.2.2, tvec.1, tvec.2.1)
    (some armor_xyz, some armor_yaw)

/-- External collaborators of `Aim` supplied by `TrajModel` (not under the
visible sources): the transform returned by `get_camera_barrel_T(CFG)`,
the rotation applied by `barrel_to_robot_T`, and
`calibrate_pitch_gravity(CFG, dist)` with the config fixed. -/
structure AimExt where
  camera_barrel_T : Vec3 → Vec3
  rot_barrel_robot : ℚ → ℚ → Vec3 → Vec3
  calibrate_pitch_gravity : ℚ → ℚ

/-- Modelled from the spec: `barrel_to_robot_T` (from `TrajModel`, which is
missing from the visible sources) rotates a point from the gimbal-barrel
frame into the robot-body frame using the current gimbal yaw and pitch;
a null (failed) pose is forwarded as null. -/
def barrel_to_robot_T (E : AimExt) (gimbal_yaw gimbal_pitch : ℚ) :
    Option Vec3 → Option Vec3 :=
  Option.map (E.rot_barrel_robot gimbal_yaw gimbal_pitch)

/-- The tuple appended per detection by `Aim.preprocess` (Aim.py line 57):
(armor_type, armor_xyz, bbox, armor_yaw). -/
abbrev ObservedArmor : Type := ℕ × Option Vec3 × BBox × Option ℚ

set_option linter.unusedVariables false in
/-- `Aim.preprocess` (Aim.py lines 32-59).  `camera_barrel_T` is bound on
line 46 and never used afterwards; the embedding keeps the dead binding. -/
def Aim.preprocess (E : AimExt) (M : ExtModel) (pred_list : List Armor)
    (stm32_state_dict : GimbalState) : List ObservedArmor :=
  let gimbal_yaw := stm32_state_dict.cur_yaw
  let gimbal_pitch := stm32_state_dict.cur_pitch
  let camera_barrel_T := E.camera_barrel_T
  pred_list.map fun armor =>
    let bbox := armor.bbox
    let armor_type := armor.cls
    let est := pnp_estimator.estimate_position M armor
    let armor_xyz := barrel_to_robot_T E gimbal_yaw gimbal_pitch est.1
    (armor_type, armor_xyz, bbox, est.2)

/-- The position conversion the spec prescribes for `preprocess`: apply the
camera-to-barrel transform first and the barrel-to-robot transform second
to each estimated position, everything else as in `Aim.preprocess`. -/
def Aim.preprocess_spec (E : AimExt) (M : ExtModel) (pred_list : List Armor)
    (stm32_state_dict : GimbalState) : List ObservedArmor :=
  pred_list.map fun armor =>
    let est := pnp_estimator.estimate_position M armor
    let armor_xyz := barrel_to_robot_T E stm32_state_dict.cur_yaw
      stm32_state_dict.cur_pitch (est.1.map E.camera_barrel_T)
    (armor.cls, armor_xyz, armor.bbox, est.2)

/-- The dictionary returned by `Aim.process_one` (Aim.py lines 87-93). -/
structure AimResult where
  abs_yaw : ℚ
  abs_pitch : ℚ
  uncalibrated_yaw : ℚ
  uncalibrated_pitch : ℚ
  target_dist : ℚ
deriving DecidableEq

/-- `Aim.posterior_calibration` (Aim.py lines 95-113). -/
def Aim.posterior_calibration (E : AimExt) (raw_pitch raw_yaw target_dist : ℚ) :
    ℚ × ℚ :=
  let target_pitch := raw_pitch
  let target_yaw := raw_yaw
  let pitch_diff := E.calibrate_pitch_gravity target_dist
  (target_pitch - pitch_diff, target_yaw)

/-- The external tracker's `process_one`: an ObservedArmor list and the
gimbal state in, `None` or a (distance, pitch, yaw) triple out; the
distance slot itself may be `None` (Aim.py line 79 tests `[0] is None`). -/
abbrev Tracker : Type :=
  List ObservedArmor → GimbalState → Option (Option ℚ × ℚ × ℚ)

/-- `Aim.process_one` (Aim.py lines 61-93).  The Python statement
`assert enemy_team in [blue, red]` on line 73 is embedded as an
`Except.error`. -/
def Aim.process_one (E : AimExt) (M : ExtModel) (tracker : Tracker)
    (pred_list : List Armor) (enemy_team : String)
    (stm32_state_dict : GimbalState) : Except String (Option AimResult) :=
  if enemy_team = "blue" ∨ enemy_team = "red" then
    let observed_armors := Aim.preprocess E M pred_list stm32_state_dict
    match tracker observed_armors stm32_state_dict with
    | none => Except.ok none
    | some target_dist_angle_tuple =>
      match target_dist_angle_tuple.1 with
      | none => Except.ok none
      | some target_dist =>
        let target_pitch := target_dist_angle_tuple.2.1
        let target_yaw := target_dist_angle_tuple.2.2
        let cal := Aim.posterior_calibration E target_pitch target_yaw target_dist
        Except.ok (some {
          abs_yaw := cal.2
          abs_pitch := cal.1
          uncalibrated_yaw := target_yaw
          uncalibrated_pitch := target_pitch
          target_dist := target_dist })
  else
    Except.error "AssertionError"

/-! Concrete instantiations of the external collaborators, used to
evaluate the embedding on closed inputs. -/

/-- A solver model that always succeeds with rvec = 0, tvec = (5, 7, 9). -/
def M0 : ExtModel where
  K := ((1,0,0),(0,1,0),(0,0,1))
  solvePnP := fun _ _ _ => some ((0,0,0), (5,7,9))
  Rodrigues := fun _ => ((1,0,0),(0,1,0),(0,0,1))
  eulerXYZ := fun _ => (0,0,3)

/-- A solver model that always reports failure. -/
def Mfail : ExtModel where
  K := ((1,0,0),(0,1,0),(0,0,1))
  solvePnP := fun _ _ _ => none
  Rodrigues := fun _ => ((1,0,0),(0,1,0),(0,0,1))
  eulerXYZ := fun _ => (0,0,0)

/-- A nontrivial (permuting) camera-to-barrel transform, an identity
barrel-to-robot rotation, and an identity gravity table. -/
def E0 : AimExt where
  camera_barrel_T := fun v => (v.2.1, v.1, v.2.2)
  rot_barrel_robot := fun _ _ v => v
  calibrate_pitch_gravity := fun d => d

def armor0 : Armor where
  cls := 2
  bbox := (10, 20, 30, 40)
  left_light := { top := (mkRat 3 2, 2), btm := (mkRat 3 2, 4) }
  right_light := { top := (6, 2), btm := (6, 4) }

/-- Same keypoints as `armor0` after integer truncation, with different
fractional pixel parts. -/
def armor0b : Armor where
  cls := 2
  bbox := (10, 20, 30, 40)
  left_light := { top := (mkRat 7 4, mkRat 5 2), btm := (mkRat 3 2, mkRat 9 2) }
  right_light := { top := (mkRat 13 2, mkRat 5 2), btm := (mkRat 25 4, mkRat 17 4) }

def st0 : GimbalState where
  cur_yaw := 0
  cur_pitch := 0

/-- A tracker stub that reports no target. -/
def trNone : Tracker := fun _ _ => none

/-- A tracker stub that returns a triple whose distance slot is null. -/
def trDistNone : Tracker := fun _ _ => some (none, 1, 2)

/-! Claims. -/

/-- Claim C1: at a concrete detection with a successful pose estimate, a
nontrivial camera-to-barrel transform and identity gimbal rotation,
`Aim.preprocess` stores the solver position with only `barrel_to_robot_T`
applied, while the two-step composition the claim describes
(`Aim.preprocess_spec`) gives a different position: the camera-to-barrel
transform, computed on Aim.py line 46, is never applied. -/
theorem C1_camera_transform_not_applied :
    Aim.preprocess E0 M0 [armor0] st0 =
      [(2, some (9,5,7), (10,20,30,40), some 3)] ∧
    Aim.preprocess_spec E0 M0 [armor0] st0 =
      [(2, some (5,9,7), (10,20,30,40), some 3)] ∧
    Aim.preprocess E0 M0 [armor0] st0 ≠ Aim.preprocess_spec E0 M0 [armor0] st0 := by
  refine ⟨by decide, by decide, by decide⟩

/-- Claim C2: a detection on which the pose estimator fails (the solver
reports failure, so `estimate_position` returns null position and null
yaw) still yields an ObservedArmor at its own index in the output of
`preprocess`, carrying a null position and null yaw. -/
theorem C2_failed_pose_forwarded (E : AimExt) (M : ExtModel)
    (pred_list : List Armor) (st : GimbalState) (i : ℕ) (a : Armor)
    (hi : pred_list[i]? = some a)
    (hfail : M.solvePnP small_armor_3d_pts (obj_2d_pts a) M.K = none) :
    (Aim.preprocess E M pred_list st)[i]? = some (a.cls, none, a.bbox, none) := by
  simp [Aim.preprocess, hi, pnp_estimator.estimate_position, hfail,
    barrel_to_robot_T]

theorem C2_witness :
    (Aim.preprocess E0 Mfail [armor0] st0)[0]? =
      some (armor0.cls, none, armor0.bbox, none) :=
  C2_failed_pose_forwarded E0 Mfail [armor0] st0 0 armor0 rfl rfl

/-- Claim C3: `preprocess` returns exactly one ObservedArmor per input
detection, the i-th output derived from the i-th input, preserving each
detection's class label and bounding box. -/
theorem C3_one_output_per_input (E : AimExt) (M : ExtModel)
    (pred_list : List Armor) (st : GimbalState) :
    (Aim.preprocess E M pred_list st).length = pred_list.length ∧
    ∀ (i : ℕ) (a : Armor), pred_list[i]? = some a →
      (Aim.preprocess E M pred_list st)[i]? =
        some (a.cls,
          barrel_to_robot_T E st.cur_yaw st.cur_pitch
            (pnp_estimator.estimate_position M a).1,
          a.bbox,
          (pnp_estimator.estimate_position M a).2) := by
  constructor
  · simp [Aim.preprocess]
  · intro i a hi
    simp [Aim.preprocess, hi]

theorem C3_witness :
    (Aim.preprocess E0 M0 [armor0] st0).length = 1 ∧
    (Aim.preprocess E0 M0 [armor0] st0)[0]? =
      some (armor0.cls,
        barrel_to_robot_T E0 st0.cur_yaw st0.cur_pitch
          (pnp_estimator.estimate_position M0 armor0).1,
        armor0.bbox,
        (pnp_estimator.estimate_position M0 armor0).2) :=
  ⟨(C3_one_output_per_input E0 M0 [armor0] st0).1,
   (C3_one_output_per_input E0 M0 [armor0] st0).2 0 armor0 rfl⟩

/-- Claim C4: `posterior_calibration` returns the raw pitch minus the
gravity-drop correction at the target distance, and the yaw unmodified,
for all inputs. -/
theorem C4_posterior_calibration (E : AimExt)
    (raw_pitch raw_yaw target_dist : ℚ) :
    Aim.posterior_calibration E raw_pitch raw_yaw target_dist =
      (raw_pitch - E.calibrate_pitch_gravity target_dist, raw_yaw) := rfl

/-- Claim C5: `process_one` with an enemy_team other than exactly "blue"
or "red" fails with the assertion error, for every external model, tracker,
detection list and gimbal state — the constant error shows the tracker is
never invoked and no detection is processed. -/
theorem C5_enemy_team_assert (E : AimExt) (M : ExtModel) (tracker : Tracker)
    (pred_list : List Armor) (enemy_team : String) (st : GimbalState)
    (h1 : enemy_team ≠ "blue") (h2 : enemy_team ≠ "red") :
    Aim.process_one E M tracker pred_list enemy_team st =
      Except.error "AssertionError" := by
  simp [Aim.process_one, h1, h2]

theorem C5_witness :
    Aim.process_one E0 M0 trNone [] "green" st0 =
      Except.error "AssertionError" :=
  C5_enemy_team_assert E0 M0 trNone [] "green" st0 (by decide) (by decide)

/-- Claim C6: when the tracker returns null for the frame, `process_one`
returns null as a normal `ok` outcome, not an error, regardless of the
detection list. -/
theorem C6_tracker_none (E : AimExt) (M : ExtModel) (tracker : Tracker)
    (pred_list : List Armor) (enemy_team : String) (st : GimbalState)
    (hteam : enemy_team = "blue" ∨ enemy_team = "red")
    (htr : tracker (Aim.preprocess E M pred_list st) st = none) :
    Aim.process_one E M tracker pred_list enemy_team st = Except.ok none := by
  rcases hteam with h | h <;> subst h <;> simp [Aim.process_one, htr]

theorem C6_witness :
    Aim.process_one E0 M0 trNone [armor0] "blue" st0 = Except.ok none :=
  C6_tracker_none E0 M0 trNone [armor0] "blue" st0 (Or.inl rfl) rfl

/-- Claim C7: `estimate_position` is total (never raises): whenever the
solver reports failure — in particular on degenerate keypoints, which this
solver model signals through its failure value — both outputs are null,
and on success both outputs are present, the yaw being an exact rational
(never NaN). -/
theorem C7_estimate_position_total (M : ExtModel) (armor : Armor) :
    (M.solvePnP small_armor_3d_pts (obj_2d_pts armor) M.K = none →
      pnp_estimator.estimate_position M armor = (none, none)) ∧
    (∀ rvec tvec,
      M.solvePnP small_armor_3d_pts (obj_2d_pts armor) M.K = some (rvec, tvec) →
      pnp_estimator.estimate_position M armor =
        (some (tvec.2.2, tvec.1, tvec.2.1),
         some (M.eulerXYZ (M.Rodrigues rvec)).2.2)) := by
  constructor
  · intro h
    simp [pnp_estimator.estimate_position, h]
  · intro rvec tvec h
    simp [pnp_estimator.estimate_position, h]

theorem C7_witness :
    pnp_estimator.estimate_position Mfail armor0 = (none, none) :=
  (C7_estimate_position_total Mfail armor0).1 rfl

/-- Claim C8: on a successful solve, the translation vector is remapped by
the exact permutation forward = solver Z, lateral = solver X, vertical =
solver Y, with no other change. -/
theorem C8_axis_permutation (M : ExtModel) (armor : Armor) (rvec tvec : Vec3)
    (h : M.solvePnP small_armor_3d_pts (obj_2d_pts armor) M.K = some (rvec, tvec)) :
    (pnp_estimator.estimate_position M armor).1 =
      some (tvec.2.2, tvec.1, tvec.2.1) := by
  simp [pnp_estimator.estimate_position, h]

theorem C8_witness :
    (pnp_estimator.estimate_position M0 armor0).1 = some (9, 5, 7) :=
  C8_axis_permutation M0 armor0 (0,0,0) (5,7,9) rfl

/-- Claim C9: the keypoints are truncated to integers before solving, so
two detections whose four keypoints agree after truncation produce
identical `estimate_position` outputs. -/
theorem C9_truncation_insensitive (M : ExtModel) (a b : Armor)
    (h : obj_2d_pts a = obj_2d_pts b) :
    pnp_estimator.estimate_position M a = pnp_estimator.estimate_position M b := by
  simp only [pnp_estimator.estimate_position, h]

theorem C9_witness :
    obj_2d_pts armor0 = obj_2d_pts armor0b ∧
    pnp_estimator.estimate_position M0 armor0 =
      pnp_estimator.estimate_position M0 armor0b :=
  ⟨by decide, C9_truncation_insensitive M0 armor0 armor0b (by decide)⟩

/-- Claim C10: when the tracker returns a triple whose distance component
is null, `process_one` returns null (an `ok` outcome for every calibrator,
so no calibration is attempted). -/
theorem C10_null_distance (E : AimExt) (M : ExtModel) (tracker : Tracker)
    (pred_list : List Armor) (enemy_team : String) (st : GimbalState)
    (p y : ℚ)
    (hteam : enemy_team = "blue" ∨ enemy_team = "red")
    (htr : tracker (Aim.preprocess E M pred_list st) st = some (none, p, y)) :
    Aim.process_one E M tracker pred_list enemy_team st = Except.ok none := by
  rcases hteam with h | h <;> subst h <;> simp [Aim.process_one, htr]

theorem C10_witness :
    Aim.process_one E0 M0 trDistNone [] "blue" st0 = Except.ok none :=
  C10_null_distance E0 M0 trDistNone [] "blue" st0 1 2 (Or.inl rfl) rfl
